import Mathlib

/-!
Verification of the credential-lifecycle core of the open-ghl-mcp server
(`src/models/auth.py`, `src/services/oauth.py`) against its natural-language
specification.

The Python code is shallowly embedded: datetimes become an integer wall-clock
value in seconds together with a timezone-awareness flag, HTTP interactions
become explicit response values passed in, the durable token file becomes an
explicit `Option FileData` threaded through the service operations, and every
Python exception becomes a constructor of the `Exc` type carried in `Except`.
Definitions mirror the source line by line; doc comments cite the embedded
source locations.
-/

deriving instance DecidableEq for Except

namespace GhlMcp

/-- Embedding of a Python `datetime` value at second precision.
`wall` is the wall-clock reading in seconds (for timezone-aware values all of
which are UTC in this codebase, `wall` is seconds since the epoch; for naive
values it is whatever clock produced them).  `tzAware` records whether
`tzinfo` is set. -/
structure PyDatetime where
  wall : Int
  tzAware : Bool
deriving DecidableEq, Repr

/-- Embedding of `datetime.now(timezone.utc)`: `now` is the UTC clock in
seconds since the epoch. -/
def PyDatetime.nowUtc (now : Int) : PyDatetime := ⟨now, true⟩

/-- Embedding of naive `datetime.now()`: local wall clock, which is the UTC
clock shifted by the machine UTC offset `localOff` (in seconds), with no
`tzinfo`. -/
def PyDatetime.nowLocal (now localOff : Int) : PyDatetime := ⟨now + localOff, false⟩

/-- Embedding of `d + timedelta(seconds=s)`. -/
def PyDatetime.addSeconds (d : PyDatetime) (s : Int) : PyDatetime := ⟨d.wall + s, d.tzAware⟩

/-- Embedding of `d.replace(tzinfo=timezone.utc)`: the wall-clock fields are
kept, only the awareness flag changes. -/
def PyDatetime.replaceUtc (d : PyDatetime) : PyDatetime := ⟨d.wall, true⟩

/-- Embedding of `datetime.fromtimestamp(t, timezone.utc)`. -/
def PyDatetime.fromTimestampUtc (t : Int) : PyDatetime := ⟨t, true⟩

/-- Embedding of `a <= b` between two Python datetimes of equal awareness
(all aware values in this codebase carry the UTC offset, so comparing wall
values is exact). -/
def PyDatetime.leb (a b : PyDatetime) : Bool := a.wall ≤ b.wall

/-- Embedding of `a < b` between two Python datetimes of equal awareness. -/
def PyDatetime.ltb (a b : PyDatetime) : Bool := a.wall < b.wall

/-- Embedding of the pydantic model `TokenResponse` (src/models/auth.py,
lines 6-15): the JSON body of a successful OAuth token-endpoint response. -/
structure TokenResponse where
  access_token : String
  token_type : String
  expires_in : Int
  refresh_token : String
  scope : String
  userType : String
  userId : Option String
deriving DecidableEq, Repr

/-- Embedding of the pydantic model `StoredToken` (src/models/auth.py,
lines 31-78): the credential record persisted to `config/tokens.json` and
cached in memory for locations. -/
structure StoredToken where
  access_token : String
  refresh_token : String
  token_type : String
  expires_at : PyDatetime
  scope : String
  user_type : String
deriving DecidableEq, Repr

/-- Embedding of `StoredToken.from_token_response` (src/models/auth.py,
lines 46-57): `expires_at = datetime.now(timezone.utc).timestamp() +
response.expires_in`, wrapped back through `datetime.fromtimestamp(...,
timezone.utc)`.  `now` is the UTC clock at call time. -/
def StoredToken.from_token_response (now : Int) (response : TokenResponse) : StoredToken :=
  { access_token := response.access_token
    refresh_token := response.refresh_token
    token_type := response.token_type
    expires_at := PyDatetime.fromTimestampUtc (now + response.expires_in)
    scope := response.scope
    user_type := response.userType }

/-- Embedding of `StoredToken.is_expired` (src/models/auth.py, lines 59-65):
`now >= expires_at` after coercing a naive `expires_at` to UTC. -/
def StoredToken.is_expired (tok : StoredToken) (now : Int) : Bool :=
  let nowDt := PyDatetime.nowUtc now
  let expires_at := if tok.expires_at.tzAware then tok.expires_at else tok.expires_at.replaceUtc
  PyDatetime.leb expires_at nowDt

/-- Embedding of `StoredToken.needs_refresh` (src/models/auth.py, lines
67-78): `buffer_time = now + timedelta(seconds=buffer_seconds)`; naive
`expires_at` is coerced to UTC; returns `buffer_time >= expires_at`.
The source default for `buffer_seconds` is 300; call sites that use the
default pass 300 explicitly here. -/
def StoredToken.needs_refresh (tok : StoredToken) (now : Int) (buffer_seconds : Int) : Bool :=
  let nowDt := PyDatetime.nowUtc now
  let buffer_time := nowDt.addSeconds buffer_seconds
  let expires_at := if tok.expires_at.tzAware then tok.expires_at else tok.expires_at.replaceUtc
  PyDatetime.leb expires_at buffer_time

/-- Modelled from the spec: the formula `needs_refresh(c, buffer) :=
now()+buffer >= c.expires_at`, stated over the stored `expires_at` instant. -/
def needsRefreshSpecFormula (now buffer expiresAt : Int) : Bool :=
  decide (now + buffer ≥ expiresAt)

/-- Embedding of the Python exception values raised by the embedded code.
`httpStatusError` is `httpx.HTTPStatusError` as raised by
`Response.raise_for_status`; `genericException` is a plain `Exception(msg)`;
`validationError` is pydantic validation failure; `keyError` is a missing
dictionary key.  The constructors `authExpiredError`, `authClaimError` and
`authTimeoutError` stand for the exception classes named by the
specification; no such classes are defined anywhere in the repository, and
the embedded code never produces these constructors — they exist so that the
specification claims naming them can be stated and settled. -/
inductive Exc where
  | httpStatusError (status : Nat)
  | genericException (msg : String)
  | validationError (msg : String)
  | keyError (key : String)
  | authExpiredError
  | authClaimError
  | authTimeoutError
deriving DecidableEq, Repr

/-- True exactly on the `authExpiredError` constructor. -/
def Exc.isAuthExpired : Exc → Bool
  | .authExpiredError => true
  | _ => false

/-- True exactly on the `authClaimError` constructor. -/
def Exc.isAuthClaim : Exc → Bool
  | .authClaimError => true
  | _ => false

/-- True on `.ok` results. -/
def exceptIsOk {α : Type} : Except Exc α → Bool
  | .ok _ => true
  | .error _ => false

/-- Embedding of `AuthMode` (src/services/oauth.py, lines 19-21). -/
inductive AuthMode where
  | standard
  | custom
deriving DecidableEq, Repr

/-- The information content of an ISO-8601 timestamp string at second
precision, as produced by `datetime.isoformat` and consumed by
`datetime.fromisoformat` / pydantic: the wall-clock value and whether the
string carries a UTC offset (aware datetimes serialize with `+00:00`, naive
ones without). -/
structure IsoTimestamp where
  wall : Int
  hasOffset : Bool
deriving DecidableEq, Repr

/-- Embedding of `serialize_expires_at` (src/models/auth.py, lines 41-44):
`expires_at.isoformat()`. -/
def PyDatetime.isoformat (d : PyDatetime) : IsoTimestamp := ⟨d.wall, d.tzAware⟩

/-- Embedding of `datetime.fromisoformat` as applied by pydantic when
re-validating a stored document: the offset.presence round-trips into the
awareness flag. -/
def IsoTimestamp.fromisoformat (s : IsoTimestamp) : PyDatetime := ⟨s.wall, s.hasOffset⟩

/-- The JSON document written to `config/tokens.json` by
`StoredToken.model_dump_json` (all string fields verbatim, `expires_at`
serialized through `isoformat`). -/
structure StoredTokenDoc where
  access_token : String
  refresh_token : String
  token_type : String
  expires_at : IsoTimestamp
  scope : String
  user_type : String
deriving DecidableEq, Repr

/-- Embedding of `token.model_dump_json()` (used in `save_token`,
src/services/oauth.py line 344). -/
def StoredToken.model_dump (t : StoredToken) : StoredTokenDoc :=
  ⟨t.access_token, t.refresh_token, t.token_type, t.expires_at.isoformat, t.scope, t.user_type⟩

/-- Embedding of `StoredToken(**token_data)` (pydantic validation of a parsed
JSON document, src/services/oauth.py line 331). -/
def StoredToken.ofDoc (d : StoredTokenDoc) : StoredToken :=
  ⟨d.access_token, d.refresh_token, d.token_type, d.expires_at.fromisoformat, d.scope, d.user_type⟩

/-- The possible states of the bytes stored at `token_storage_path`, classified
by how far the read pipeline of `load_token` (file read, `json.loads`,
`StoredToken(**data)`) gets on them.  `doc` is a readable file holding valid
JSON that matches the `StoredToken` schema. -/
inductive FileData where
  | doc (d : StoredTokenDoc)
  | badSchema
  | badJson
  | unreadable
deriving DecidableEq, Repr

/-- The read-and-parse pipeline inside the `try` block of `load_token`
(src/services/oauth.py, lines 327-331): `f.read()` may raise (`unreadable`),
`json.loads(data)` may raise (`badJson`), `StoredToken(**token_data)` may
raise pydantic validation (`badSchema`). -/
def readAndParseTokenFile : FileData → Except Exc StoredToken
  | .doc d => .ok (StoredToken.ofDoc d)
  | .badSchema => .error (.validationError "StoredToken")
  | .badJson => .error (.genericException "json.loads failed")
  | .unreadable => .error (.genericException "file read failed")

namespace OAuthService

/-- Embedding of `OAuthService.load_token` (src/services/oauth.py, lines
318-333).  `file` is `none` when the storage path does not exist, otherwise
the classified contents.  Standard mode returns `None`; the whole read
pipeline is wrapped in `try ... except Exception: return None`. -/
def load_token (mode : AuthMode) (file : Option FileData) : Option StoredToken :=
  match mode with
  | .standard => none
  | .custom =>
    match file with
    | none => none
    | some fd =>
      match readAndParseTokenFile fd with
      | .ok t => some t
      | .error _ => none

/-- Embedding of `OAuthService.save_token` (src/services/oauth.py, lines
335-344): a no-op in standard mode, otherwise overwrites the storage path
with `token.model_dump_json()`. -/
def save_token (mode : AuthMode) (token : StoredToken) (file : Option FileData) : Option FileData :=
  match mode with
  | .standard => file
  | .custom => some (.doc token.model_dump)

/-- An HTTP response to the refresh POST in `refresh_token`: the status code
and the body as seen by `TokenResponse(**response.json())` (`none` when the
body does not validate as a `TokenResponse`). -/
structure RefreshResp where
  status : Nat
  body : Option TokenResponse
deriving DecidableEq, Repr

/-- Embedding of `httpx.Response.raise_for_status`: succeeds exactly on 2xx
statuses, otherwise raises `HTTPStatusError`. -/
def raiseForStatus (status : Nat) : Except Exc Unit :=
  if 200 ≤ status ∧ status < 300 then .ok () else .error (.httpStatusError status)

/-- Embedding of `OAuthService.refresh_token` (src/services/oauth.py, lines
419-442).  `now` is the UTC clock, `file` the durable token store, `resp`
the response to the refresh POST.  Returns the raised-or-returned outcome
together with the store after the call: standard mode raises before any I/O;
`response.raise_for_status()` raises on non-2xx before anything is saved;
on success the refreshed token is saved via `save_token` and returned. -/
def refresh_token (mode : AuthMode) (now : Int) (file : Option FileData)
    (resp : RefreshResp) : Except Exc StoredToken × Option FileData :=
  match mode with
  | .standard => (.error (.genericException "Token refresh is handled automatically in standard mode"), file)
  | .custom =>
    match raiseForStatus resp.status with
    | .error e => (.error e, file)
    | .ok _ =>
      match resp.body with
      | none => (.error (.validationError "TokenResponse"), file)
      | some tr =>
        let stored_token := StoredToken.from_token_response now tr
        (.ok stored_token, save_token .custom stored_token file)

end OAuthService

/-- The value of a character in the standard base64 alphabet, as in
CPython `binascii.table_a2b_base64`. -/
def b64val (c : Char) : Option Nat :=
  if 'A' ≤ c ∧ c ≤ 'Z' then some (c.toNat - 'A'.toNat)
  else if 'a' ≤ c ∧ c ≤ 'z' then some (c.toNat - 'a'.toNat + 26)
  else if '0' ≤ c ∧ c ≤ '9' then some (c.toNat - '0'.toNat + 52)
  else if c = '+' then some 62
  else if c = '/' then some 63
  else none

/-- Emit the bytes of one complete base64 quad. -/
def b64emit4 (a b c d : Nat) : List Nat :=
  [a * 4 + b / 16, (b % 16) * 16 + c / 4, (c % 4) * 64 + d]

/-- Emit the bytes of a partial final quad terminated by padding: two
characters yield one byte, three yield two. -/
def b64emitPartial : List Nat → List Nat
  | [a, b] => [a * 4 + b / 16]
  | [a, b, c] => [a * 4 + b / 16, (b % 16) * 16 + c / 4]
  | _ => []

/-- Embedding of CPython `binascii.a2b_base64` in its default lenient mode,
as called by `base64.b64decode(s)` with `validate=False`: characters outside
the alphabet are skipped; a data character resets the pad count; a pad
character is ignored while fewer than two quad characters are pending, and
decoding ends successfully once pads complete the pending quad; leftover
quad characters at end of input raise `binascii.Error`. -/
def a2bBase64 : List Char → List Nat → Nat → List Nat → Except Exc (List Nat)
  | [], quad, _, out =>
    if quad.length = 0 then .ok out
    else .error (.genericException "binascii.Error: Incorrect padding")
  | c :: rest, quad, pads, out =>
    if c = '=' then
      if quad.length ≥ 2 ∧ quad.length + (pads + 1) ≥ 4 then
        .ok (out ++ b64emitPartial quad)
      else if quad.length ≥ 2 then
        a2bBase64 rest quad (pads + 1) out
      else
        a2bBase64 rest quad pads out
    else
      match b64val c with
      | none => a2bBase64 rest quad pads out
      | some v =>
        match quad with
        | [a, b, cc] => a2bBase64 rest [] 0 (out ++ b64emit4 a b cc v)
        | q => a2bBase64 rest (q ++ [v]) 0 out

/-- Embedding of `base64.b64decode(s)` (standard alphabet, lenient). -/
def b64decode (s : String) : Except Exc (List Nat) :=
  a2bBase64 s.toList [] 0 []

/-- Embedding of the translation step of `base64.urlsafe_b64decode`:
the URL-safe characters `-` and `_` are mapped to `+` and `/`. -/
def urlsafeTranslate (c : Char) : Char :=
  if c = '-' then '+' else if c = '_' then '/' else c

/-- Embedding of `base64.urlsafe_b64decode(s)`. -/
def urlsafeB64decode (s : String) : Except Exc (List Nat) :=
  a2bBase64 (s.toList.map urlsafeTranslate) [] 0 []

/-- Embedding of the padding step shared by both claim extractors
(src/services/oauth.py lines 209-210 and 570-571):
`payload += "=" * (4 - len(payload) % 4)` — note that an already aligned
payload receives four extra pad characters. -/
def padPayload (payload : String) : String :=
  payload ++ String.mk (List.replicate (4 - payload.length % 4) '=')

/-- A minimal embedding of `json.loads` restricted to flat JSON objects with
string keys and string values and no escape sequences, which is the shape of
the token payloads the claims are about.  Inputs outside this fragment fail
to parse; every parse failure is surfaced the same way the source surfaces a
`json.JSONDecodeError`, so the restriction only widens the failure set of the
model, never its success set.  The entry point is `jsonFlatParseChars`;
`jsonStringLit` parses the remainder of a double-quoted string with no
escape sequences. -/
def jsonStringLit : List Char → List Char → Option (String × List Char)
  | [], _ => none
  | '"' :: rest, acc => some (String.mk acc.reverse, rest)
  | '\\' :: _, _ => none
  | c :: rest, acc => jsonStringLit rest (c :: acc)

/-- Parse the members of a flat JSON object after the opening brace; `fuel`
bounds the number of members and is always sufficient when initialized with
the input length. -/
def jsonMembers : Nat → List Char → List (String × String) → Option (List (String × String))
  | 0, _, _ => none
  | fuel + 1, cs, acc =>
    match cs with
    | '}' :: rest => if rest.dropWhile (fun c => c = ' ') = [] then some acc.reverse else none
    | _ =>
      match cs with
      | '"' :: cs1 =>
        match jsonStringLit cs1 [] with
        | none => none
        | some (k, rest) =>
          match rest.dropWhile (fun c => c = ' ') with
          | ':' :: rest2 =>
            match rest2.dropWhile (fun c => c = ' ') with
            | '"' :: rest2b =>
              match jsonStringLit rest2b [] with
              | none => none
              | some (v, rest3) =>
                match rest3.dropWhile (fun c => c = ' ') with
                | ',' :: rest4 => jsonMembers fuel (rest4.dropWhile (fun c => c = ' ')) ((k, v) :: acc)
                | '}' :: rest4 => if rest4.dropWhile (fun c => c = ' ') = [] then some ((k, v) :: acc).reverse else none
                | _ => none
            | _ => none
          | _ => none
      | _ => none

/-- Entry point of the flat-object parser. -/
def jsonFlatParseChars (cs : List Char) : Option (List (String × String)) :=
  let cs := cs.dropWhile (fun c => c = ' ' ∨ c = '\t' ∨ c = '\n' ∨ c = '\r')
  match cs with
  | '{' :: rest => jsonMembers (rest.length + 1) (rest.dropWhile (fun c => c = ' ')) []
  | _ => none

/-- Bytes-to-JSON step: `json.loads(decoded)` where `decoded` is a bytes
object; CPython decodes it as UTF-8 first.  Restricted to ASCII bytes. -/
def jsonLoadsFlat (bytes : List Nat) : Option (List (String × String)) :=
  if bytes.all (fun b => b < 128) then
    jsonFlatParseChars (bytes.map Char.ofNat)
  else none

/-- ASCII bytes of a string, for stating concrete decode results. -/
def asciiBytes (s : String) : List Nat := s.toList.map Char.toNat

/-- Helper for `splitDot`. -/
def splitDotAux : List Char → List Char → List String
  | [], acc => [String.mk acc.reverse]
  | '.' :: rest, acc => String.mk acc.reverse :: splitDotAux rest []
  | c :: rest, acc => splitDotAux rest (c :: acc)

/-- Embedding of Python `token.split(".")`: split on every dot, keeping
empty segments (`"".split(".") == [""]`). -/
def splitDot (s : String) : List String := splitDotAux s.toList []

/-- Embedding of the claim-extraction block of the custom-mode
`OAuthService.get_location_token` (src/services/oauth.py, lines 564-580):
split the agency token on `.`; with at least two segments, pad the middle
segment and decode it with `base64.b64decode` (the standard alphabet, not
the URL-safe one), parse JSON, read `authClassId`, and treat a missing or
falsy value as an error; every failure inside the `try` is re-raised as
`Exception("Failed to extract company ID from token: ...")`. -/
def extractCompanyIdCustomInner (agency_token : String) : Except Exc String :=
  let parts := splitDot agency_token
  if parts.length ≥ 2 then
    let payload := padPayload (parts.getD 1 "")
    match b64decode payload with
    | .error _ => .error (.genericException "binascii.Error")
    | .ok decoded =>
      match jsonLoadsFlat decoded with
      | none => .error (.genericException "json.JSONDecodeError")
      | some token_payload =>
        match token_payload.lookup "authClassId" with
        | none => .error (.genericException "Could not extract company ID from token")
        | some company_id =>
          if company_id = "" then .error (.genericException "Could not extract company ID from token")
          else .ok company_id
  else .error (.genericException "Invalid token format")

/-- The `except Exception` wrapper around the block above (src/services/
oauth.py, lines 579-580): every failure is re-raised as a plain
`Exception`. -/
def extractCompanyIdCustom (agency_token : String) : Except Exc String :=
  match extractCompanyIdCustomInner agency_token with
  | .ok cid => .ok cid
  | .error _ => .error (.genericException "Failed to extract company ID from token")

/-- Embedding of the claim-extraction block of
`StandardAuthService.get_location_token` (src/services/oauth.py, lines
200-222): identical to the custom-mode block except that the decode uses
`base64.urlsafe_b64decode` and the wrapper message differs. -/
def extractCompanyIdStandardInner (company_token : String) : Except Exc String :=
  let parts := splitDot company_token
  if parts.length ≥ 2 then
    let payload := padPayload (parts.getD 1 "")
    match urlsafeB64decode payload with
    | .error _ => .error (.genericException "binascii.Error")
    | .ok decoded =>
      match jsonLoadsFlat decoded with
      | none => .error (.genericException "json.JSONDecodeError")
      | some jwt_data =>
        match jwt_data.lookup "authClassId" with
        | none => .error (.genericException "Could not extract company ID from token")
        | some raw_company_id =>
          if raw_company_id = "" then .error (.genericException "Could not extract company ID from token")
          else .ok raw_company_id
  else .error (.genericException "Invalid token format")

/-- The `except Exception` wrapper around the block above (src/services/
oauth.py, lines 221-222). -/
def extractCompanyIdStandard (company_token : String) : Except Exc String :=
  match extractCompanyIdStandardInner company_token with
  | .ok cid => .ok cid
  | .error _ => .error (.genericException "Failed to parse company token")

/-- The shape every claim-extraction result actually has in the source: a
successful company id, or a plain wrapped `Exception` — never one of the
typed exception classes named by the specification and never an unwrapped
lower-level error. -/
def claimResultBenign : Except Exc String → Bool
  | .ok _ => true
  | .error (.genericException _) => true
  | .error _ => false

/-- The JSON body of a location-token exchange response as the source reads
it: `data["access_token"]` (a `KeyError` when absent), and `data.get(...)`
with defaults for the remaining fields. -/
structure LocationTokenJson where
  access_token : Option String
  refresh_token : Option String
  token_type : Option String
  expires_in : Option Int
  scope : Option String
  userType : Option String
deriving DecidableEq, Repr

/-- An HTTP response to the location-token exchange POST. -/
structure ExchangeResp where
  status : Nat
  body : LocationTokenJson
deriving DecidableEq, Repr

/-- Embedding of `StandardAuthService._exchange_company_for_location_token`
(src/services/oauth.py, lines 149-183): statuses other than 200 and 201
raise; a success body without a truthy `access_token` raises; otherwise the
location token string is returned. -/
def exchangeCompanyForLocationToken (resp : ExchangeResp) : Except Exc String :=
  if !(resp.status == 200 || resp.status == 201) then
    .error (.genericException "Failed to exchange company token for location token")
  else
    match resp.body.access_token with
    | none => .error (.genericException "Location token exchange succeeded but no access_token returned")
    | some location_token =>
      if location_token = "" then
        .error (.genericException "Location token exchange succeeded but no access_token returned")
      else .ok location_token

namespace OAuthService

/-- The environment of one custom-mode `get_location_token` call: the UTC
clock `now` and machine UTC offset `localOff` at call time, and the provider
responses that the refresh POST and the exchange POST would receive. -/
structure CustomEnv where
  now : Int
  localOff : Int
  refreshResp : RefreshResp
  exchangeResp : ExchangeResp
deriving DecidableEq, Repr

/-- Embedding of `OAuthService.get_valid_token` (src/services/oauth.py,
lines 356-373) in custom mode: load the stored token; with none stored the
source runs the interactive `authenticate()` flow, which opens a browser and
cannot complete unattended — that branch is represented by an error result;
a stored token that `needs_refresh()` (default 300 s buffer) is refreshed
over the network.  Returns the access-token outcome, the store after the
call, and the number of network requests made. -/
def get_valid_token (env : CustomEnv) (file : Option FileData) :
    Except Exc String × Option FileData × Nat :=
  match load_token .custom file with
  | none => (.error (.genericException "authenticate: interactive flow pending"), file, 0)
  | some token =>
    if token.needs_refresh env.now 300 then
      match refresh_token .custom env.now file env.refreshResp with
      | (.ok stored, file2) => (.ok stored.access_token, file2, 1)
      | (.error e, file2) => (.error e, file2, 1)
    else (.ok token.access_token, file, 0)

/-- The in-memory location-token cache `self._location_tokens`, as an
association list with dict semantics (insert shadows, lookup takes the
newest binding). -/
def LocationCache := List (String × StoredToken)
deriving DecidableEq

/-- Embedding of the cache check at the head of the custom-mode
`OAuthService.get_location_token` (src/services/oauth.py, lines 544-549):
unless `force_refresh`, a cached entry that does not `needs_refresh()` is
returned directly. -/
def locationCacheHit (env : CustomEnv) (cache : LocationCache) (location_id : String)
    (force_refresh : Bool) : Option String :=
  if force_refresh then none
  else
    match List.lookup location_id cache with
    | none => none
    | some cached_token =>
      if !(cached_token.needs_refresh env.now 300) then some cached_token.access_token
      else none

/-- Embedding of the `StoredToken(...)` built for the cache in the
custom-mode `get_location_token` (src/services/oauth.py, lines 600-610):
`expires_in` defaults to 86400 when absent, and
`expires_at = datetime.now() + timedelta(seconds=expires_in)` uses the
naive local clock. -/
def locationTokenOfResponse (env : CustomEnv) (body : LocationTokenJson) (atok : String) : StoredToken :=
  let expires_in := body.expires_in.getD 86400
  { access_token := atok
    refresh_token := body.refresh_token.getD ""
    token_type := body.token_type.getD "Bearer"
    expires_at := (PyDatetime.nowLocal env.now env.localOff).addSeconds expires_in
    scope := body.scope.getD ""
    user_type := body.userType.getD "Location" }

/-- The outcome of one custom-mode `get_location_token` call: the returned
or raised result, the cache and durable store after the call, and the number
of network requests made during it. -/
structure GltOutcome where
  result : Except Exc String
  cache : LocationCache
  file : Option FileData
  network : Nat

/-- Embedding of the body of the custom-mode `OAuthService.get_location_token`
after a cache miss (src/services/oauth.py, lines 551-615): obtain a valid
agency token (possibly refreshing over the network), re-load the stored
token and fail when none is found, extract the company id from the agency
token (standard-alphabet base64, wrapped failures), POST the exchange
(one network request), treat statuses other than 200 and 201 as failure,
read `data["access_token"]` (a `KeyError` when absent), default
`expires_in` to 86400, build the cached `StoredToken` with
`expires_at = datetime.now() + timedelta(seconds=expires_in)` — the naive
local clock — and insert it into the cache. -/
def getLocationTokenMiss (env : CustomEnv) (cache : LocationCache) (file : Option FileData)
    (location_id : String) : GltOutcome :=
  match get_valid_token env file with
  | (.error e, file2, n) => ⟨.error e, cache, file2, n⟩
  | (.ok agency_token, file2, n) =>
    match load_token .custom file2 with
    | none => ⟨.error (.genericException "No agency token found"), cache, file2, n⟩
    | some _token_data =>
      match extractCompanyIdCustom agency_token with
      | .error e => ⟨.error e, cache, file2, n⟩
      | .ok _company_id =>
        let resp := env.exchangeResp
        let n := n + 1
        if !(resp.status == 200 || resp.status == 201) then
          ⟨.error (.genericException "Failed to get location token"), cache, file2, n⟩
        else
          match resp.body.access_token with
          | none => ⟨.error (.keyError "access_token"), cache, file2, n⟩
          | some atok =>
            ⟨.ok atok, (location_id, locationTokenOfResponse env resp.body atok) :: cache, file2, n⟩

/-- Embedding of the custom-mode branch of `OAuthService.get_location_token`
(src/services/oauth.py, lines 531-615): the cache check followed, on a miss,
by the full derivation. -/
def get_location_token (env : CustomEnv) (cache : LocationCache) (file : Option FileData)
    (location_id : String) (force_refresh : Bool) : GltOutcome :=
  match locationCacheHit env cache location_id force_refresh with
  | some tok => ⟨.ok tok, cache, file, 0⟩
  | none => getLocationTokenMiss env cache file location_id

end OAuthService

namespace OAuthService

/-!
Cooperative-interleaving model of several logical callers running the
custom-mode `get_location_token` concurrently for the same `location_id`.
The source contains no lock of any kind; a caller executes the synchronous
cache check atomically, then suspends at its first `await`
(`get_valid_token`), and later runs to completion.  Collapsing everything
after the first suspension into one atomic block only removes interleavings,
so any behaviour exhibited here is a behaviour of the source. -/

/-- The progress of one logical caller: not yet scheduled, suspended after a
cache miss, or finished with a result. -/
inductive CallerPhase where
  | ready
  | midFlight
  | finished (result : Except Exc String)
deriving DecidableEq, Repr

/-- Shared state of the interleaved execution: the process-wide cache and
durable store, the total number of network requests issued so far, and each
caller phase. -/
structure ConcState where
  cache : LocationCache
  file : Option FileData
  network : Nat
  callers : List CallerPhase

/-- Run one scheduling step of caller `i`: a `ready` caller executes the
cache check of `get_location_token` (finishing immediately on a hit); a
`midFlight` caller executes the remainder `getLocationTokenMiss` against the
current shared state and publishes its effects. -/
def stepCaller (env : CustomEnv) (location_id : String) (s : ConcState) (i : Nat) : ConcState :=
  match s.callers.get? i with
  | none => s
  | some .ready =>
    match locationCacheHit env s.cache location_id false with
    | some tok => { s with callers := s.callers.set i (.finished (.ok tok)) }
    | none => { s with callers := s.callers.set i .midFlight }
  | some .midFlight =>
    let r := getLocationTokenMiss env s.cache s.file location_id
    { cache := r.cache
      file := r.file
      network := s.network + r.network
      callers := s.callers.set i (.finished r.result) }
  | some (.finished _) => s

/-- Run a schedule: a list of caller indices, each executing its next atomic
block in turn. -/
def runSchedule (env : CustomEnv) (location_id : String) (s : ConcState) : List Nat → ConcState :=
  List.foldl (stepCaller env location_id) s

/-- The initial shared state for `n` concurrent callers against a cold cache
over the durable store `file`. -/
def coldConcState (n : Nat) (file : Option FileData) : ConcState :=
  ⟨[], file, 0, List.replicate n .ready⟩

end OAuthService

/-!
Model of the OAuth callback listener and of `authenticate` awaiting the
authorization code (src/services/oauth.py, lines 394-408 and 464-529).
`_run_callback_server` creates `self._auth_code_future`, registers
`handle_callback` as the only code that ever resolves it, and schedules a
`cleanup` task that itself awaits the same future before tearing the
listener down; `authenticate` then awaits the future.  Nothing anywhere in
the flow reacts to the passage of time, so an idle step (time passing with
no incoming callback request) leaves the state unchanged. -/

/-- The state of one pending interactive authorization: the asyncio future
for the authorization code and whether the local listener is still up. -/
structure CallbackServer where
  futureResult : Option String
  running : Bool
deriving DecidableEq, Repr

/-- The state right after `_run_callback_server` returns: unresolved future,
listener up. -/
def callbackServerStart : CallbackServer := ⟨none, true⟩

/-- Embedding of `handle_callback` (src/services/oauth.py, lines 470-506)
applied to one incoming request with query parameters `state` and `code`:
a state mismatch or a missing code answers 400 without touching the future;
otherwise the future is resolved with the code and a 200 page is served. -/
def handleCallback (expected_state : String) (qstate : Option String) (qcode : Option String)
    (s : CallbackServer) : CallbackServer × Nat :=
  if qstate ≠ some expected_state then (s, 400)
  else
    match qcode with
    | none => (s, 400)
    | some code => ({ s with futureResult := some code }, 200)

/-- Embedding of one unit of time passing with no callback request arriving:
the `cleanup` task (lines 521-527) is still blocked awaiting the unresolved
future, and no other code runs, so the state is unchanged; once the future
is resolved, `cleanup` proceeds and tears the listener down. -/
def idleStep (s : CallbackServer) : CallbackServer :=
  match s.futureResult with
  | some _ => { s with running := false }
  | none => s

/-- `n` units of idle time. -/
def runIdle : Nat → CallbackServer → CallbackServer
  | 0, s => s
  | n + 1, s => runIdle n (idleStep s)

/-- What `authenticate` observes when it awaits `self._auth_code_future`
(line 408): still pending, or resolved with a code.  The source has no
timeout construct anywhere in this flow, and no `AuthTimeoutError` class
exists in the repository, so there is no raising outcome to observe. -/
inductive AwaitOutcome where
  | pending
  | resolved (code : String)
deriving DecidableEq, Repr

/-- The observation function for the pending await. -/
def awaitAuthCode (s : CallbackServer) : AwaitOutcome :=
  match s.futureResult with
  | some code => .resolved code
  | none => .pending

/-- True when a fallible result raised the `AuthExpiredError` named by the
specification. -/
def raisesAuthExpired {α : Type} : Except Exc α → Bool
  | .error e => e.isAuthExpired
  | .ok _ => false

/-- True when a fallible result raised the `AuthClaimError` named by the
specification. -/
def raisesAuthClaim {α : Type} : Except Exc α → Bool
  | .error e => e.isAuthClaim
  | .ok _ => false

/-!
Concrete fixtures used by witnesses and counterexamples.
`agencyJwt` is a three-segment token whose middle segment is the base64url
(and also plain base64) encoding of a JSON object with `authClassId` `X`;
`urlOnlyJwt` is one whose middle segment decodes only under the URL-safe
alphabet (it contains a `-`). -/

/-- A well-formed agency token with `authClassId` `X`. -/
def agencyJwt : String := "h.eyJhdXRoQ2xhc3NJZCI6IlgifQ.s"

/-- A token whose payload is valid base64url but not valid standard base64. -/
def urlOnlyJwt : String := "h.eyJhdXRoQ2xhc3NJZCI6ImF-In0.s"

/-- A durable token document holding `agencyJwt` with a far-future aware
expiry. -/
def agencyDoc : StoredTokenDoc :=
  ⟨agencyJwt, "refresh-1", "Bearer", ⟨86400, true⟩, "contacts.readonly", "Company"⟩

/-- The durable store holding `agencyDoc`. -/
def agencyFile : Option FileData := some (.doc agencyDoc)

/-- A successful location-exchange body carrying token `tokA` and
`expires_in` 3600. -/
def exchangeBodyA : LocationTokenJson :=
  ⟨some "tokA", none, none, some 3600, none, none⟩

/-- A call environment at UTC instant 0 on a UTC machine, whose exchange
endpoint answers 200 with `exchangeBodyA`. -/
def envA : OAuthService.CustomEnv := ⟨0, 0, ⟨200, none⟩, ⟨200, exchangeBodyA⟩⟩

/-- The same call environment on a machine five hours west of UTC
(UTC offset -18000 seconds). -/
def envWest : OAuthService.CustomEnv := ⟨0, -18000, ⟨200, none⟩, ⟨200, exchangeBodyA⟩⟩

/-- Claim C1: for every stored credential and every buffer value,
`needs_refresh` returns true exactly when `now() + buffer >= expires_at`,
including credentials whose `expires_at` lies in the past. -/
theorem claim1_needs_refresh_matches_spec (tok : StoredToken) (now buffer : Int) :
    tok.needs_refresh now buffer = needsRefreshSpecFormula now buffer tok.expires_at.wall := by
  unfold StoredToken.needs_refresh needsRefreshSpecFormula PyDatetime.leb
    PyDatetime.nowUtc PyDatetime.addSeconds PyDatetime.replaceUtc
  by_cases h : tok.expires_at.tzAware <;> simp [h, ge_iff_le]

/-- Claim C2, counterexample: with a credential on disk, a 401 response to
the refresh exchange makes `refresh_token` raise `httpx.HTTPStatusError`
(from `raise_for_status`) and not the `AuthExpiredError` the claim names —
no class of that name exists in the repository.  The store is unchanged. -/
theorem claim2_counterexample :
    OAuthService.refresh_token .custom 0 agencyFile ⟨401, none⟩ =
      (.error (.httpStatusError 401), agencyFile) ∧
    raisesAuthExpired (OAuthService.refresh_token .custom 0 agencyFile ⟨401, none⟩).1 = false := by
  exact ⟨rfl, rfl⟩

/-- Claim C2, amended: in custom mode, when the refresh exchange is rejected
by the provider (any non-2xx response, e.g. 401), `refresh_token` raises —
the transport-layer `httpx.HTTPStatusError`, since the repository defines no
`AuthExpiredError` — and the previously stored durable credential on disk is
left unchanged: nothing is saved on the error path. -/
theorem claim2_theorem (now : Int) (file : Option FileData) (resp : OAuthService.RefreshResp)
    (h : ¬(200 ≤ resp.status ∧ resp.status < 300)) :
    OAuthService.refresh_token .custom now file resp =
      (.error (.httpStatusError resp.status), file) := by
  unfold OAuthService.refresh_token OAuthService.raiseForStatus
  simp [h]

/-- Witness for the amended claim C2 at a concrete 401 response. -/
theorem claim2_witness :
    OAuthService.refresh_token .custom 5 agencyFile ⟨401, none⟩ =
      (.error (.httpStatusError 401), agencyFile) :=
  claim2_theorem 5 agencyFile ⟨401, none⟩ (by decide)

/-- Claim C3, counterexample: the middle segment of `urlOnlyJwt` base64url-
decodes (with padding added as needed) to JSON whose `authClassId` is `a~`,
yet the custom-mode claim extraction does not yield `a~` — it fails, because
the source decodes with the standard-alphabet `base64.b64decode`, which
drops the `-` and then chokes on the padding.  Moreover the failure — and
the failure on a malformed one-segment token — is a plain wrapped
`Exception`, not the `AuthClaimError` the claim names. -/
theorem claim3_counterexample :
    urlsafeB64decode (padPayload "eyJhdXRoQ2xhc3NJZCI6ImF-In0") =
      .ok (asciiBytes "\x7b\"authClassId\":\"a~\"\x7d") ∧
    jsonLoadsFlat (asciiBytes "\x7b\"authClassId\":\"a~\"\x7d") = some [("authClassId", "a~")] ∧
    extractCompanyIdCustom urlOnlyJwt =
      .error (.genericException "Failed to extract company ID from token") ∧
    raisesAuthClaim (extractCompanyIdCustom urlOnlyJwt) = false ∧
    extractCompanyIdCustom "abc" =
      .error (.genericException "Failed to extract company ID from token") ∧
    raisesAuthClaim (extractCompanyIdCustom "abc") = false := by
  exact ⟨rfl, rfl, rfl, rfl, rfl, rfl⟩

/-- Claim C3, amended: the custom-mode claim extraction in
`OAuthService.get_location_token` decodes the middle segment with
standard-alphabet base64 (only the standard-mode variant uses base64url);
when the padded middle segment decodes under its alphabet to JSON with a
truthy `authClassId` the extraction yields that id; and for every token
string whatsoever, both extractors either succeed or raise a plain wrapped
`Exception` — never an uncaught lower-level exception, and never an
`AuthClaimError`, which does not exist in the repository. -/
theorem claim3_theorem :
    (∀ token : String, claimResultBenign (extractCompanyIdCustom token) = true) ∧
    (∀ token : String, claimResultBenign (extractCompanyIdStandard token) = true) ∧
    extractCompanyIdCustom agencyJwt = .ok "X" ∧
    extractCompanyIdStandard urlOnlyJwt = .ok "a~" := by
  refine ⟨?_, ?_, rfl, rfl⟩
  · intro token
    unfold extractCompanyIdCustom
    cases extractCompanyIdCustomInner token <;> rfl
  · intro token
    unfold extractCompanyIdStandard
    cases extractCompanyIdStandardInner token <;> rfl

/-- Helper: a cache miss with a fresh agency token on disk, an extractable
company id and a 200 exchange response performs exactly the exchange network
request and inserts the wrapped token. -/
theorem getLocationTokenMiss_success (env : OAuthService.CustomEnv)
    (cache : OAuthService.LocationCache) (file : Option FileData)
    (L : String) (tok : StoredToken) (cid atok : String)
    (hload : OAuthService.load_token .custom file = some tok)
    (hnr : tok.needs_refresh env.now 300 = false)
    (hex : extractCompanyIdCustom tok.access_token = .ok cid)
    (hst : env.exchangeResp.status = 200)
    (hat : env.exchangeResp.body.access_token = some atok) :
    OAuthService.getLocationTokenMiss env cache file L =
      ⟨.ok atok, (L, OAuthService.locationTokenOfResponse env env.exchangeResp.body atok) :: cache,
        file, 1⟩ := by
  unfold OAuthService.getLocationTokenMiss OAuthService.get_valid_token
  rw [hload]
  simp only [hnr, Bool.false_eq_true, if_false, hload, hex, hst, hat]
  rfl

/-- Claim C4, counterexample: two immediate `get_location_token` calls from
a cold cache do not always perform exactly one network exchange.  On a
machine five hours west of UTC with `expires_in` 3600, the entry cached by
the first call carries a naive local-clock expiry that `needs_refresh`
misreads as five hours in the past, so the second immediate call misses the
cache and performs a second exchange: two exchanges in total, not one. -/
theorem claim4_counterexample :
    (OAuthService.get_location_token envWest [] agencyFile "loc1" false).network = 1 ∧
    (OAuthService.get_location_token envWest
        (OAuthService.get_location_token envWest [] agencyFile "loc1" false).cache
        (OAuthService.get_location_token envWest [] agencyFile "loc1" false).file
        "loc1" false).network = 1 ∧
    (((OAuthService.get_location_token envWest [] agencyFile "loc1" false).network +
      (OAuthService.get_location_token envWest
        (OAuthService.get_location_token envWest [] agencyFile "loc1" false).cache
        (OAuthService.get_location_token envWest [] agencyFile "loc1" false).file
        "loc1" false).network) == 1) = false := by
  exact ⟨rfl, rfl, rfl⟩

/-- Claim C4, amended: a call whose cache entry for the location is present
and still valid (does not `needs_refresh`) returns the cached access token
with zero network requests and no state change.  But because the entry
stored by a cold-cache call has its expiry computed from the naive local
`datetime.now()`, two immediate calls from a cold cache perform exactly one
exchange in total only when `300 < localOff + expires_in` (always true for
the source default `expires_in` of 86400); when `localOff + expires_in ≤
300` — for example a UTC-5 machine with `expires_in` 3600 — the freshly
cached entry is already stale and the second call performs a second
exchange. -/
theorem claim4_theorem :
    (∀ (env : OAuthService.CustomEnv) (cache : OAuthService.LocationCache)
        (file : Option FileData) (L : String) (t : StoredToken),
      List.lookup L cache = some t →
      t.needs_refresh env.now 300 = false →
      OAuthService.get_location_token env cache file L false = ⟨.ok t.access_token, cache, file, 0⟩) ∧
    (∀ (env : OAuthService.CustomEnv) (file : Option FileData) (L : String)
        (tok : StoredToken) (cid atok : String) (e : Int),
      OAuthService.load_token .custom file = some tok →
      tok.needs_refresh env.now 300 = false →
      extractCompanyIdCustom tok.access_token = .ok cid →
      env.exchangeResp.status = 200 →
      env.exchangeResp.body.access_token = some atok →
      env.exchangeResp.body.expires_in = some e →
      300 < env.localOff + e →
      ∀ r1 : OAuthService.GltOutcome,
        OAuthService.get_location_token env [] file L false = r1 →
        r1.result = .ok atok ∧ r1.network = 1 ∧
        OAuthService.get_location_token env r1.cache r1.file L false =
          ⟨.ok atok, r1.cache, r1.file, 0⟩) ∧
    (∀ (env : OAuthService.CustomEnv) (file : Option FileData) (L : String)
        (tok : StoredToken) (cid atok : String) (e : Int),
      OAuthService.load_token .custom file = some tok →
      tok.needs_refresh env.now 300 = false →
      extractCompanyIdCustom tok.access_token = .ok cid →
      env.exchangeResp.status = 200 →
      env.exchangeResp.body.access_token = some atok →
      env.exchangeResp.body.expires_in = some e →
      env.localOff + e ≤ 300 →
      ∀ r1 : OAuthService.GltOutcome,
        OAuthService.get_location_token env [] file L false = r1 →
        r1.result = .ok atok ∧ r1.network = 1 ∧
        (OAuthService.get_location_token env r1.cache r1.file L false).network = 1 ∧
        (OAuthService.get_location_token env r1.cache r1.file L false).result = .ok atok) := by
  refine ⟨?_, ?_, ?_⟩
  · intro env cache file L t hl hnr
    unfold OAuthService.get_location_token OAuthService.locationCacheHit
    simp [hl, hnr]
  · intro env file L tok cid atok e hload hnr hex hst hat hei hlt r1 hr1
    have hmiss := getLocationTokenMiss_success env [] file L tok cid atok hload hnr hex hst hat
    have h1 : OAuthService.get_location_token env [] file L false =
        ⟨.ok atok, [(L, OAuthService.locationTokenOfResponse env env.exchangeResp.body atok)],
          file, 1⟩ := by
      unfold OAuthService.get_location_token OAuthService.locationCacheHit
      simp [hmiss]
    rw [h1] at hr1
    subst hr1
    refine ⟨rfl, rfl, ?_⟩
    have hfresh : (OAuthService.locationTokenOfResponse env env.exchangeResp.body atok).needs_refresh
        env.now 300 = false := by
      unfold OAuthService.locationTokenOfResponse StoredToken.needs_refresh
        PyDatetime.nowLocal PyDatetime.addSeconds PyDatetime.nowUtc PyDatetime.replaceUtc
        PyDatetime.leb
      simp [hei]
      omega
    unfold OAuthService.get_location_token OAuthService.locationCacheHit
    simp [List.lookup, hfresh]
    rfl
  · intro env file L tok cid atok e hload hnr hex hst hat hei hle r1 hr1
    have hmiss := getLocationTokenMiss_success env [] file L tok cid atok hload hnr hex hst hat
    have h1 : OAuthService.get_location_token env [] file L false =
        ⟨.ok atok, [(L, OAuthService.locationTokenOfResponse env env.exchangeResp.body atok)],
          file, 1⟩ := by
      unfold OAuthService.get_location_token OAuthService.locationCacheHit
      simp [hmiss]
    rw [h1] at hr1
    subst hr1
    refine ⟨rfl, rfl, ?_, ?_⟩
    all_goals {
      have hstale : (OAuthService.locationTokenOfResponse env env.exchangeResp.body atok).needs_refresh
          env.now 300 = true := by
        unfold OAuthService.locationTokenOfResponse StoredToken.needs_refresh
          PyDatetime.nowLocal PyDatetime.addSeconds PyDatetime.nowUtc PyDatetime.replaceUtc
          PyDatetime.leb
        simp [hei]
        omega
      have hc2 : OAuthService.locationCacheHit env
          [(L, OAuthService.locationTokenOfResponse env env.exchangeResp.body atok)] L false = none := by
        unfold OAuthService.locationCacheHit
        simp [List.lookup, hstale]
      have hmiss2 := getLocationTokenMiss_success env
        [(L, OAuthService.locationTokenOfResponse env env.exchangeResp.body atok)]
        file L tok cid atok hload hnr hex hst hat
      unfold OAuthService.get_location_token
      simp only [hc2]
      rw [hmiss2]
    }

/-- Witness for the amended claim C4: on a UTC machine (`envA`) the second
immediate call is a cache hit and the two calls exchange once in total; on a
UTC-5 machine (`envWest`) with `expires_in` 3600 both calls exchange. -/
theorem claim4_witness :
    ((OAuthService.get_location_token envA [] agencyFile "loc1" false).result = .ok "tokA" ∧
      (OAuthService.get_location_token envA [] agencyFile "loc1" false).network = 1 ∧
      OAuthService.get_location_token envA
          (OAuthService.get_location_token envA [] agencyFile "loc1" false).cache
          (OAuthService.get_location_token envA [] agencyFile "loc1" false).file "loc1" false =
        ⟨.ok "tokA", (OAuthService.get_location_token envA [] agencyFile "loc1" false).cache,
          (OAuthService.get_location_token envA [] agencyFile "loc1" false).file, 0⟩) ∧
    ((OAuthService.get_location_token envWest [] agencyFile "loc1" false).network = 1 ∧
      (OAuthService.get_location_token envWest
          (OAuthService.get_location_token envWest [] agencyFile "loc1" false).cache
          (OAuthService.get_location_token envWest [] agencyFile "loc1" false).file
          "loc1" false).network = 1) :=
  ⟨claim4_theorem.2.1 envA agencyFile "loc1" (StoredToken.ofDoc agencyDoc) "X" "tokA" 3600
      rfl (by decide) rfl rfl rfl rfl (by decide)
      (OAuthService.get_location_token envA [] agencyFile "loc1" false) rfl,
    have h := claim4_theorem.2.2 envWest agencyFile "loc1" (StoredToken.ofDoc agencyDoc) "X" "tokA" 3600
      rfl (by decide) rfl rfl rfl rfl (by decide)
      (OAuthService.get_location_token envWest [] agencyFile "loc1" false) rfl
    ⟨h.2.1, h.2.2.1⟩⟩

/-- A schedule in which all ten callers run their cache check before any of
them completes. -/
def schedInterleaved : List Nat := List.range 10 ++ List.range 10

/-- A schedule in which each of the ten callers runs to completion before
the next one starts. -/
def schedSequential : List Nat := (List.range 10).flatMap (fun i => [i, i])

/-- Claim C5, counterexample: the source has no per-key lock; under the
interleaving in which all ten concurrent callers execute the cache check
before any of them completes, ten network exchanges are issued — not the
exactly one the claim states. -/
theorem claim5_counterexample :
    (OAuthService.runSchedule envA "loc1" (OAuthService.coldConcState 10 agencyFile)
      schedInterleaved).network = 10 ∧
    ((OAuthService.runSchedule envA "loc1" (OAuthService.coldConcState 10 agencyFile)
      schedInterleaved).network == 1) = false := by
  exact ⟨rfl, rfl⟩

/-- Claim C5, amended: `get_location_token` contains no single-flight lock:
ten concurrent callers that all pass the cache check before any completes
each issue their own exchange (ten network requests), though all ten do
finish with the same successful token; only when the callers run one after
another does the cache limit the ten calls to a single exchange. -/
theorem claim5_theorem :
    (OAuthService.runSchedule envA "loc1" (OAuthService.coldConcState 10 agencyFile)
      schedInterleaved).network = 10 ∧
    (OAuthService.runSchedule envA "loc1" (OAuthService.coldConcState 10 agencyFile)
      schedInterleaved).callers = List.replicate 10 (.finished (.ok "tokA")) ∧
    (OAuthService.runSchedule envA "loc1" (OAuthService.coldConcState 10 agencyFile)
      schedSequential).network = 1 ∧
    (OAuthService.runSchedule envA "loc1" (OAuthService.coldConcState 10 agencyFile)
      schedSequential).callers = List.replicate 10 (.finished (.ok "tokA")) := by
  exact ⟨rfl, rfl, rfl, rfl⟩

/-- Helper: with no callback arriving, the pending-authorization state is
stationary under the passage of time — nothing in the source reacts to a
clock. -/
theorem runIdle_noCallback (n : Nat) : runIdle n callbackServerStart = callbackServerStart := by
  induction n with
  | zero => rfl
  | succ k ih => exact ih

/-- Claim C6, counterexample: with no callback ever arriving, the await is
still pending and the listener still up after a million time units; the
no-callback state is a fixed point of the passage of time, so no timeout
ever fires — the source has no timeout construct and defines no
`AuthTimeoutError`. -/
theorem claim6_counterexample :
    awaitAuthCode (runIdle 1000000 callbackServerStart) = .pending ∧
    (runIdle 1000000 callbackServerStart).running = true ∧
    idleStep callbackServerStart = callbackServerStart := by
  rw [runIdle_noCallback]
  exact ⟨rfl, rfl, rfl⟩

/-- Claim C6, amended: when no callback ever arrives, awaiting the redirect
never raises and never resolves — the pending future stays pending for every
duration and the local listener is never torn down (teardown is scheduled
behind the same future); the future is resolved only by an incoming callback
whose state matches. -/
theorem claim6_theorem :
    (∀ n : Nat, awaitAuthCode (runIdle n callbackServerStart) = .pending ∧
      (runIdle n callbackServerStart).running = true) ∧
    (∀ s code : String,
      (handleCallback s (some s) (some code) callbackServerStart).1.futureResult = some code) := by
  constructor
  · intro n
    rw [runIdle_noCallback]
    exact ⟨rfl, rfl⟩
  · intro s code
    simp [handleCallback]

/-- Claim C7, counterexample: the location token cached by a successful
custom-mode `get_location_token` call has a naive (timezone-unaware)
`expires_at` — it is built from the naive local `datetime.now()` —
contradicting the claimed invariant for credentials entering the in-memory
cache. -/
theorem claim7_counterexample :
    (List.lookup "loc1" (OAuthService.get_location_token envA [] agencyFile "loc1" false).cache).map
      (fun t => t.expires_at.tzAware) = some false := by
  rfl

/-- Claim C7, amended: credentials built from OAuth token responses
(`from_token_response`) always carry a timezone-aware `expires_at`, but
every location token that a successful exchange inserts into the in-memory
cache carries a naive `expires_at` built from the local clock (downstream
comparisons coerce it to UTC, which misreads the expiry by the machine UTC
offset). -/
theorem claim7_theorem :
    (∀ (now : Int) (tr : TokenResponse),
      (StoredToken.from_token_response now tr).expires_at.tzAware = true) ∧
    (∀ (env : OAuthService.CustomEnv) (cache : OAuthService.LocationCache)
        (file : Option FileData) (L : String) (r : OAuthService.GltOutcome),
      OAuthService.getLocationTokenMiss env cache file L = r →
      exceptIsOk r.result = true →
      (List.lookup L r.cache).map (fun t => t.expires_at.tzAware) = some false) := by
  constructor
  · intro now tr
    rfl
  · intro env cache file L r hr hok
    unfold OAuthService.getLocationTokenMiss at hr
    repeat' split at hr
    all_goals subst hr
    all_goals try (simp [exceptIsOk] at hok)
    by_cases hs : (¬env.exchangeResp.status = 200 ∧ ¬env.exchangeResp.status = 201)
    · rw [if_pos hs] at hok
      simp [exceptIsOk] at hok
    · rw [if_neg hs] at hok
      have hb : (env.exchangeResp.status == 200 || env.exchangeResp.status == 201) = true := by
        rcases not_and_or.mp hs with h | h
        · simp [not_not.mp h]
        · simp [not_not.mp h]
      rcases hat : env.exchangeResp.body.access_token with _ | atok
      · rw [hat] at hok
        simp [exceptIsOk] at hok
      · simp [hb, hat, List.lookup, OAuthService.locationTokenOfResponse,
          PyDatetime.nowLocal, PyDatetime.addSeconds]

/-- Witness for the amended claim C7 at a concrete response and a concrete
exchange environment. -/
theorem claim7_witness :
    (StoredToken.from_token_response 0 ⟨"a", "Bearer", 3600, "r", "s", "Company", none⟩).expires_at.tzAware = true ∧
    (List.lookup "loc1" (OAuthService.getLocationTokenMiss envA [] agencyFile "loc1").cache).map
      (fun t => t.expires_at.tzAware) = some false :=
  ⟨claim7_theorem.1 0 ⟨"a", "Bearer", 3600, "r", "s", "Company", none⟩,
   claim7_theorem.2 envA [] agencyFile "loc1"
     (OAuthService.getLocationTokenMiss envA [] agencyFile "loc1") rfl rfl⟩

/-- Claim C8: in custom mode, saving a credential and loading it back yields
the same credential — every field, including the expiry instant and its
awareness, round-trips through the serialized document. -/
theorem claim8_theorem (t : StoredToken) (file : Option FileData) :
    OAuthService.load_token .custom (OAuthService.save_token .custom t file) = some t := by
  rfl

/-- Claim C9: both location-token exchanges treat HTTP 200 and HTTP 201 as
success and every other status as failure: the standard-mode
`_exchange_company_for_location_token` succeeds exactly on 200/201 (given a
truthy `access_token` in the body), and a custom-mode `get_location_token`
that reaches the exchange succeeds exactly when the exchange answers 200 or
201. -/
theorem claim9_theorem :
    (∀ (resp : ExchangeResp) (tk : String),
      resp.body.access_token = some tk → tk ≠ "" →
      (exceptIsOk (exchangeCompanyForLocationToken resp) = true ↔
        (resp.status = 200 ∨ resp.status = 201))) ∧
    (∀ (env : OAuthService.CustomEnv) (file : Option FileData) (L : String)
        (tok : StoredToken) (cid atok : String),
      OAuthService.load_token .custom file = some tok →
      tok.needs_refresh env.now 300 = false →
      extractCompanyIdCustom tok.access_token = .ok cid →
      env.exchangeResp.body.access_token = some atok →
      (exceptIsOk (OAuthService.get_location_token env [] file L false).result = true ↔
        (env.exchangeResp.status = 200 ∨ env.exchangeResp.status = 201))) := by
  constructor
  · intro resp tk hat htk
    unfold exchangeCompanyForLocationToken
    rw [hat]
    by_cases h : resp.status = 200 ∨ resp.status = 201
    · have hb : (resp.status == 200 || resp.status == 201) = true := by
        rcases h with h | h <;> simp [h]
      simp [hb, htk, exceptIsOk, h]
    · have hb : (resp.status == 200 || resp.status == 201) = false := by
        rw [Bool.or_eq_false_iff]
        constructor <;> rw [beq_eq_false_iff_ne]
        · exact fun hh => h (Or.inl hh)
        · exact fun hh => h (Or.inr hh)
      simp [hb, exceptIsOk, h]
  · intro env file L tok cid atok hload hnr hex hat
    have hc : OAuthService.locationCacheHit env [] L false = none := rfl
    unfold OAuthService.get_location_token
    rw [hc]
    unfold OAuthService.getLocationTokenMiss OAuthService.get_valid_token
    rw [hload]
    simp only [hnr, Bool.false_eq_true, if_false, hload, hex]
    by_cases h : env.exchangeResp.status = 200 ∨ env.exchangeResp.status = 201
    · have hb : (env.exchangeResp.status == 200 || env.exchangeResp.status == 201) = true := by
        rcases h with h | h <;> simp [h]
      simp [hb, hat, exceptIsOk, h]
    · have hb : (env.exchangeResp.status == 200 || env.exchangeResp.status == 201) = false := by
        rw [Bool.or_eq_false_iff]
        constructor <;> rw [beq_eq_false_iff_ne]
        · exact fun hh => h (Or.inl hh)
        · exact fun hh => h (Or.inr hh)
      simp [hb, exceptIsOk, h]

/-- Witness for claim C9: a 200 response with `tokA` succeeds, a 404 with
the same body fails. -/
theorem claim9_witness :
    (exceptIsOk (exchangeCompanyForLocationToken ⟨200, exchangeBodyA⟩) = true ↔
      ((200 : Nat) = 200 ∨ (200 : Nat) = 201)) ∧
    (exceptIsOk (exchangeCompanyForLocationToken ⟨404, exchangeBodyA⟩) = true ↔
      ((404 : Nat) = 200 ∨ (404 : Nat) = 201)) :=
  ⟨claim9_theorem.1 ⟨200, exchangeBodyA⟩ "tokA" rfl (by decide),
   claim9_theorem.1 ⟨404, exchangeBodyA⟩ "tokA" rfl (by decide)⟩

/-- Claim C10: in custom mode, `load_token` returns `none` — it never
raises — both when the storage path is missing and for every stored file
whose contents are unreadable, are not valid JSON, or do not match the
credential schema; it returns a credential exactly for a readable, valid,
schema-conforming document. -/
theorem claim10_theorem :
    OAuthService.load_token .custom none = none ∧
    (∀ d : StoredTokenDoc,
      OAuthService.load_token .custom (some (.doc d)) = some (StoredToken.ofDoc d)) ∧
    OAuthService.load_token .custom (some .badSchema) = none ∧
    OAuthService.load_token .custom (some .badJson) = none ∧
    OAuthService.load_token .custom (some .unreadable) = none :=
  ⟨rfl, fun _ => rfl, rfl, rfl, rfl⟩

end GhlMcp
